import Mathlib

/-!
Verification of the animal-detection relay backend (src/backend/app.py).

The file gives a shallow embedding of the Flask application: each request
handler becomes a pure Lean function from the inbound request plus an
oracle describing the outcome of every outbound call (classifier HTTP call,
storage upload, record-store inserts) to the HTTP response together with
the list of outbound side effects the handler attempted.  Python floats are
modelled as rationals; the subset of Python value coercions the handlers
use (float(), int(), truthiness) is embedded explicitly.
-/

namespace AnimalDetection

/-- JSON scalar values as Python sees them after response.json().
Compound JSON values (arrays, objects) behave exactly like null for every
operation this service performs on a value (float() raises a TypeError on
all three, and the value is otherwise only echoed back); they are not
separately modelled since no handler inspects their structure. -/
inductive JVal where
  | num (q : ℚ)
  | str (s : String)
  | bool (b : Bool)
  | null
deriving DecidableEq, Repr

/-- Bodies of the JSON responses produced by jsonify calls in app.py. -/
inductive RespBody where
  /-- the CORS-preflight body in predict -/
  | okStatus
  /-- an error body -/
  | errorMsg (msg : String)
  /-- the predict success body; also the
  webhook success body described by the spec -/
  | success (animal : JVal) (confidence : ℚ)
  /-- the save-history success body -/
  | saved (image_url : String)
  /-- GET /health body -/
  | healthy
  /-- GET / body -/
  | rootStatus
deriving DecidableEq, Repr

/-- An HTTP response: the status code returned next to each jsonify call,
plus the serialized body. -/
structure HttpResponse where
  status : Nat
  body : RespBody
deriving DecidableEq, Repr

/-- The two methods routed to predict. -/
inductive Method where
  | POST
  | OPTIONS
deriving DecidableEq, Repr

/-- A file part of a multipart request: werkzeug FileStorage as used by
app.py (filename, bytes from read(), mimetype). -/
structure UploadedFile where
  filename : String
  content : List Nat
  mimetype : String
deriving DecidableEq, Repr

/-- An inbound request to the predict route: the method and request.files
(an association list keyed by part name). -/
structure PredictRequest where
  method : Method
  files : List (String × UploadedFile)
deriving DecidableEq, Repr

/-- Outcome of parsing the classifier response body, i.e. of
response.json() followed by the .get accesses. -/
inductive BodyParse where
  /-- response.json() raised; msg is str(e) -/
  | parseFail (msg : String)
  /-- valid JSON that is not an object, so prediction.get raises an
  AttributeError; msg is str(e) -/
  | nondict (msg : String)
  /-- a JSON object, as an association list of its fields -/
  | dict (fields : List (String × JVal))
deriving DecidableEq, Repr

/-- Outcome of the outbound requests.post call to MODEL_URL. -/
inductive ClassifierOutcome where
  /-- requests.post itself raised (timeout, connection failure);
  msg is str(e) -/
  | netFail (msg : String)
  /-- requests.post returned a Response with this status code.
  statusMsg is the str of the HTTPError that raise_for_status raises
  when the status is 4xx or 5xx; body is what parsing the body yields. -/
  | httpResp (status : Nat) (statusMsg : String) (body : BodyParse)
deriving DecidableEq, Repr

/-- The row inserted into captured_images by save_history. -/
structure CapturedData where
  user_id : String
  image_url : String
  status : String
deriving DecidableEq, Repr

/-- The row inserted into labeled_images by save_history. -/
structure LabelData where
  captured_image_id : String
  labeled_image_url : String
  animal_detected : String
  confidence_score : ℚ
  user_id : String
deriving DecidableEq, Repr

/-- A row returned by a supabase insert; the only field app.py reads is
the generated id. -/
structure DbRow where
  id : String
deriving DecidableEq, Repr

/-- The outbound calls a handler can attempt, recorded in order. -/
inductive Effect where
  /-- requests.post to MODEL_URL -/
  | classifierCall
  /-- supabase.storage.from_(bucket).upload(filename, ...) -/
  | storageUpload (bucket : String) (filename : String)
  /-- supabase.table captured_images insert -/
  | insertCaptured (row : CapturedData)
  /-- supabase.table labeled_images insert -/
  | insertLabeled (row : LabelData)
deriving DecidableEq, Repr

/-- True of the one effect predict can produce. -/
def Effect.isClassifierCall : Effect → Bool
  | .classifierCall => true
  | _ => false

/-- Oracle for the outbound calls save_history makes: result of the
storage upload, the public URL returned for a filename (get_public_url is
client-side URL construction and cannot fail), and the results of the two
table inserts.  An error value means the supabase client raised, with
str(e) as the message. -/
structure StoreWorld where
  upload : Except String Unit
  publicUrlOf : String → String
  capturedInsert : Except String (List DbRow)
  labeledInsert : Except String Unit

/- ===== embedded Python value coercions ===== -/

/-- Numeric value of a list of decimal digit characters. -/
def digitsVal (cs : List Char) : Nat :=
  cs.foldl (fun a c => a * 10 + (c.toNat - 48)) 0

/-- Split a leading run of decimal digits off a character list. -/
def splitDigits : List Char → List Char × List Char
  | [] => ([], [])
  | c :: rest =>
    if c.isDigit then
      let p := splitDigits rest
      (c :: p.1, p.2)
    else ([], c :: rest)

/-- Exponent suffix of a float literal after the e or E marker:
an optional sign followed by a nonempty digit run. -/
def parseExpAfterE (mant : ℚ) (cs : List Char) : Option ℚ :=
  let signed : Bool × List Char :=
    match cs with
    | '-' :: t => (true, t)
    | '+' :: t => (false, t)
    | t => (false, t)
  let neg := signed.1
  let ds := signed.2
  if ds.isEmpty || !ds.all Char.isDigit then none
  else
    let e : ℤ := if neg then -(digitsVal ds : ℤ) else (digitsVal ds : ℤ)
    some (mant * (10 : ℚ) ^ e)

/-- Continuation after the mantissa of a float literal: end of input or an
exponent part. -/
def parseExpTail (mant : ℚ) : List Char → Option ℚ
  | [] => some mant
  | c :: t => if c = 'e' || c = 'E' then parseExpAfterE mant t else none

/-- An unsigned Python float literal: digits, digits.digits, .digits or
digits., each optionally followed by an exponent.  The inf and nan forms,
which denote values outside ℚ, and digit-group underscores are not
modelled; no theorem below depends on a string reaching float(). -/
def parseUnsignedFloat (cs : List Char) : Option ℚ :=
  let p1 := splitDigits cs
  let ip := p1.1
  match p1.2 with
  | [] => if ip.isEmpty then none else some ((digitsVal ip : ℚ))
  | c :: rest =>
    if c = '.' then
      let p2 := splitDigits rest
      let fp := p2.1
      if ip.isEmpty && fp.isEmpty then none
      else
        parseExpTail ((digitsVal ip : ℚ) + (digitsVal fp : ℚ) / (10 ^ fp.length)) p2.2
    else if c = 'e' || c = 'E' then
      if ip.isEmpty then none else parseExpAfterE (digitsVal ip : ℚ) rest
    else none

/-- Python float(s) on a string: strip whitespace, optional sign, float
literal.  none means float raised a ValueError. -/
def pyFloatString (s : String) : Option ℚ :=
  match s.trim.toList with
  | '-' :: t => (parseUnsignedFloat t).map (fun q => -q)
  | '+' :: t => parseUnsignedFloat t
  | t => parseUnsignedFloat t

/-- Python float(v) on a JSON value: numbers pass through, booleans become
0 or 1, strings are parsed, null (and the compound values it stands for)
raises a TypeError, giving none. -/
def pyFloat : JVal → Option ℚ
  | .num q => some q
  | .bool b => some (if b then 1 else 0)
  | .str s => pyFloatString s
  | .null => none

/-- str(e) for the exception float(v) raises when pyFloat v is none
(quotation marks of the CPython text omitted). -/
def floatErrMsg : JVal → String
  | .null => "float() argument must be a string or a real number, not NoneType"
  | .str s => "could not convert string to float: " ++ s
  | _ => ""

/-- Python int(s) on a string: strip whitespace, optional sign, nonempty
digit run (digit-group underscores not modelled). -/
def pyIntString (s : String) : Option Int :=
  match s.trim.toList with
  | '-' :: t => if t.isEmpty || !t.all Char.isDigit then none else some (-(digitsVal t : Int))
  | '+' :: t => if t.isEmpty || !t.all Char.isDigit then none else some ((digitsVal t : Int))
  | t => if t.isEmpty || !t.all Char.isDigit then none else some ((digitsVal t : Int))

/-- Python truthiness of an optional string: None and the empty string are
falsy, as in the `not all([...])` and `if not VAR` checks of app.py. -/
def pyTruthyOpt : Option String → Bool
  | none => false
  | some s => !s.isEmpty

/- ===== configuration (module level of app.py) ===== -/

/-- The three required environment variables read at import time. -/
structure Config where
  supabase_url : String
  supabase_service_key : String
  model_url : String
deriving DecidableEq, Repr

/-- The module-level configuration code of app.py: read SUPABASE_URL,
SUPABASE_SERVICE_KEY and MODEL_URL from the environment (os.getenv gives
None when a variable is absent) and raise before any route is registered
if one is missing or empty. -/
def loadConfig (env : String → Option String) : Except String Config :=
  if !pyTruthyOpt (env "SUPABASE_URL") || !pyTruthyOpt (env "SUPABASE_SERVICE_KEY") then
    .error "Supabase env variables missing"
  else if !pyTruthyOpt (env "MODEL_URL") then
    .error "MODEL_URL missing"
  else
    .ok ⟨(env "SUPABASE_URL").getD "", (env "SUPABASE_SERVICE_KEY").getD "",
         (env "MODEL_URL").getD ""⟩

/-- int(os.getenv("PORT", 5000)) from the main block: the default 5000
when PORT is absent, otherwise int() applied to the string (none when
int() raises). -/
def serverPort (env : String → Option String) : Option Int :=
  match env "PORT" with
  | none => some 5000
  | some s => pyIntString s

/-- The storage bucket save_history uploads into. -/
def BUCKET_NAME : String := "captured-images"

/- ===== the /predict handler ===== -/

/-- The predict handler of app.py.  OPTIONS requests get the preflight
response before anything else; a POST without an image part is rejected
with 400; otherwise the file is read and sent to MODEL_URL (the oracle w
gives that call's outcome), raise_for_status raises for 4xx and 5xx
statuses, the body is parsed, label defaults to "Unknown" and confidence
to 0 before float() and the x100 scaling, and every exception inside the
try block is answered with 500 and str(e). -/
def predict (req : PredictRequest) (w : ClassifierOutcome) :
    HttpResponse × List Effect :=
  if req.method = Method.OPTIONS then
    (⟨200, RespBody.okStatus⟩, [])
  else
    match req.files.lookup "image" with
    | none => (⟨400, RespBody.errorMsg "No image uploaded"⟩, [])
    | some _file =>
      match w with
      | .netFail msg => (⟨500, RespBody.errorMsg msg⟩, [Effect.classifierCall])
      | .httpResp status statusMsg body =>
        if 400 ≤ status ∧ status < 600 then
          (⟨500, RespBody.errorMsg statusMsg⟩, [Effect.classifierCall])
        else
          match body with
          | .parseFail msg => (⟨500, RespBody.errorMsg msg⟩, [Effect.classifierCall])
          | .nondict msg => (⟨500, RespBody.errorMsg msg⟩, [Effect.classifierCall])
          | .dict fields =>
            let animal := (fields.lookup "label").getD (JVal.str "Unknown")
            let confVal := (fields.lookup "confidence").getD (JVal.num 0)
            match pyFloat confVal with
            | some c =>
              (⟨200, RespBody.success animal (c * 100)⟩, [Effect.classifierCall])
            | none =>
              (⟨500, RespBody.errorMsg (floatErrMsg confVal)⟩, [Effect.classifierCall])

/- ===== the /save-history handler ===== -/

/-- An inbound request to the save-history route: request.files and
request.form. -/
structure SaveHistoryRequest where
  files : List (String × UploadedFile)
  form : List (String × String)
deriving DecidableEq, Repr

/-- The save_history handler of app.py.  Reject with 400 when the image
part is missing or any of the form fields animal, confidence, user_id is
missing or empty (`not all([...])`); then, inside the try block: upload
the bytes under int(time.time())_filename, take the public URL, insert the
captured_images row (status completed), answer 500 if the insert returned
no row, build the labeled_images row with float(confidence) and the first
returned row's id, insert it, and answer 200.  Any exception inside the
try is answered with 500 and str(e).  now is int(time.time()). -/
def save_history (req : SaveHistoryRequest) (w : StoreWorld) (now : Nat) :
    HttpResponse × List Effect :=
  match req.files.lookup "image" with
  | none => (⟨400, RespBody.errorMsg "No image uploaded"⟩, [])
  | some file =>
    let animal := req.form.lookup "animal"
    let confidence := req.form.lookup "confidence"
    let user_id := req.form.lookup "user_id"
    if !(pyTruthyOpt animal && pyTruthyOpt confidence && pyTruthyOpt user_id) then
      (⟨400, RespBody.errorMsg "Missing required data"⟩, [])
    else
      let filename := toString now ++ "_" ++ file.filename
      match w.upload with
      | .error msg =>
        (⟨500, RespBody.errorMsg msg⟩, [Effect.storageUpload BUCKET_NAME filename])
      | .ok _ =>
        let public_url := w.publicUrlOf filename
        let captured : CapturedData :=
          ⟨user_id.getD "", public_url, "completed"⟩
        match w.capturedInsert with
        | .error msg =>
          (⟨500, RespBody.errorMsg msg⟩,
           [Effect.storageUpload BUCKET_NAME filename, Effect.insertCaptured captured])
        | .ok rows =>
          match rows with
          | [] =>
            (⟨500, RespBody.errorMsg "Failed to create captured image record"⟩,
             [Effect.storageUpload BUCKET_NAME filename, Effect.insertCaptured captured])
          | r :: _ =>
            match pyFloatString (confidence.getD "") with
            | none =>
              (⟨500, RespBody.errorMsg (floatErrMsg (JVal.str (confidence.getD "")))⟩,
               [Effect.storageUpload BUCKET_NAME filename, Effect.insertCaptured captured])
            | some q =>
              let label : LabelData :=
                ⟨r.id, public_url, animal.getD "", q, user_id.getD ""⟩
              match w.labeledInsert with
              | .error msg =>
                (⟨500, RespBody.errorMsg msg⟩,
                 [Effect.storageUpload BUCKET_NAME filename,
                  Effect.insertCaptured captured, Effect.insertLabeled label])
              | .ok _ =>
                (⟨200, RespBody.saved public_url⟩,
                 [Effect.storageUpload BUCKET_NAME filename,
                  Effect.insertCaptured captured, Effect.insertLabeled label])

/- ===== the /health and / handlers ===== -/

/-- GET /health. -/
def health : HttpResponse := ⟨200, RespBody.healthy⟩

/-- GET /. -/
def root : HttpResponse := ⟨200, RespBody.rootStatus⟩

/- ===== the /webhook/process-image handler ===== -/

/-- Oracle for the outbound calls the notify-by-reference handler makes,
in order: the status=processing update, the GET on image_url, the
classifier call (ok carries the parsed JSON object), the labeled_images
insert and the status=completed update. -/
structure WebhookWorld where
  setProcessing : Except String Unit
  fetchImage : Except String (List Nat)
  classify : Except String (List (String × JVal))
  insertLabeled : Except String Unit
  setCompleted : Except String Unit

/-- Modelled from the spec: the POST /webhook/process-image handler
(notify-by-reference) is absent from src/ — app.py only defines /predict,
/save-history, /health and /.  Following the spec: validate that
image_url, captured_image_id and user_id are all present, answering 400
when one is missing with no side effects; then set status=processing,
fetch the image bytes, call the classifier, extract label (default
"unknown") and confidence (default 0, a parse exception also defaulting
to 0) scaled x100, insert the LabeledImage row, set status=completed, and
answer 200 with the success body; any downstream error is answered
with 500. -/
def webhook_process_image (image_url captured_image_id user_id : Option String)
    (w : WebhookWorld) : HttpResponse :=
  if image_url.isNone || captured_image_id.isNone || user_id.isNone then
    ⟨400, RespBody.errorMsg "Missing parameters"⟩
  else
    match w.setProcessing with
    | .error msg => ⟨500, RespBody.errorMsg msg⟩
    | .ok _ =>
      match w.fetchImage with
      | .error msg => ⟨500, RespBody.errorMsg msg⟩
      | .ok _ =>
        match w.classify with
        | .error msg => ⟨500, RespBody.errorMsg msg⟩
        | .ok fields =>
          let animal := (fields.lookup "label").getD (JVal.str "unknown")
          let conf :=
            ((pyFloat ((fields.lookup "confidence").getD (JVal.num 0))).getD 0) * 100
          match w.insertLabeled with
          | .error msg => ⟨500, RespBody.errorMsg msg⟩
          | .ok _ =>
            match w.setCompleted with
            | .error msg => ⟨500, RespBody.errorMsg msg⟩
            | .ok _ => ⟨200, RespBody.success animal conf⟩

/- ===== concrete inputs used by the witnesses and counterexamples ===== -/

/-- A concrete uploaded file. -/
def exFile : UploadedFile := ⟨"a.jpg", [137, 80], "image/jpeg"⟩

/-- A well-formed POST to predict carrying an image part. -/
def exPredictReq : PredictRequest := ⟨Method.POST, [("image", exFile)]⟩

/-- A POST to predict with no image part. -/
def noImageReq : PredictRequest := ⟨Method.POST, []⟩

/-- A CORS preflight request to predict. -/
def optionsReq : PredictRequest := ⟨Method.OPTIONS, []⟩

/-- Classifier outcome: 200 with label fox and confidence 0.87. -/
def c1Fields : List (String × JVal) :=
  [("label", JVal.str "fox"), ("confidence", JVal.num (87 / 100))]

/-- Classifier outcome wrapping c1Fields. -/
def c1World : ClassifierOutcome := .httpResp 200 "" (.dict c1Fields)

/-- Classifier 200 whose confidence value is JSON null. -/
def c3NullFields : List (String × JVal) :=
  [("label", JVal.str "cat"), ("confidence", JVal.null)]

/-- Classifier outcome wrapping c3NullFields. -/
def c3World : ClassifierOutcome := .httpResp 200 "" (.dict c3NullFields)

/-- Classifier 200 with an empty JSON object body. -/
def c3EmptyWorld : ClassifierOutcome := .httpResp 200 "" (.dict [])

/-- An arbitrary classifier outcome for the C4 witness. -/
def c4World : ClassifierOutcome := .netFail "unreachable"

/-- Classifier outcome with a final 300 status and a parseable body:
requests does not auto-follow a 300 and raise_for_status does not raise
below 400. -/
def c7World300 : ClassifierOutcome :=
  .httpResp 300 "" (.dict [("label", JVal.str "cat"), ("confidence", JVal.num (1 / 2))])

/-- Classifier outcome: requests.post raised at the network level. -/
def c7NetWorld : ClassifierOutcome := .netFail "Connection timed out"

/-- Classifier outcome: a 503 from the model endpoint. -/
def c7HttpWorld : ClassifierOutcome := .httpResp 503 "503 Server Error" (.parseFail "boom")

/-- An arbitrary classifier outcome for the C10 witness. -/
def c10World : ClassifierOutcome := .netFail "unreachable"

/-- A complete save-history request. -/
def shReqFull : SaveHistoryRequest :=
  ⟨[("image", exFile)], [("animal", "fox"), ("confidence", "87.0"), ("user_id", "u1")]⟩

/-- A save-history request without the image part. -/
def shReqNoImage : SaveHistoryRequest :=
  ⟨[], [("animal", "fox"), ("confidence", "87.0"), ("user_id", "u1")]⟩

/-- A save-history request whose form lacks user_id. -/
def shReqNoUser : SaveHistoryRequest :=
  ⟨[("image", exFile)], [("animal", "fox"), ("confidence", "87.0")]⟩

/-- A store world whose calls all succeed. -/
def shWorld : StoreWorld :=
  ⟨.ok (), fun f => "https://cdn/" ++ f, .ok [⟨"cid1"⟩], .ok ()⟩

/-- A store world whose captured_images insert returns no row. -/
def c6World : StoreWorld :=
  ⟨.ok (), fun f => "https://cdn/" ++ f, .ok [], .ok ()⟩

/-- Parsed classifier JSON for the webhook witness. -/
def c2Fields : List (String × JVal) :=
  [("label", JVal.str "fox"), ("confidence", JVal.num (92 / 100))]

/-- A webhook world whose downstream calls all succeed. -/
def c2World : WebhookWorld := ⟨.ok (), .ok [1, 2], .ok c2Fields, .ok (), .ok ()⟩

/-- An environment with no variables set. -/
def emptyEnv : String → Option String := fun _ => none

/- ===== theorems ===== -/

/-- C1: for every predict request where the classifier responds with HTTP
2xx and a JSON body containing a numeric confidence field c on a 0-1
scale, the 200 response carries confidence c x 100 (and the label, default
"Unknown"), with the classifier call the only outbound effect. -/
theorem C1_predict_confidence_scaled
    (req : PredictRequest) (w : ClassifierOutcome)
    (status : Nat) (statusMsg : String) (fields : List (String × JVal))
    (f : UploadedFile) (c : ℚ)
    (hm : req.method = Method.POST)
    (hf : req.files.lookup "image" = some f)
    (hw : w = ClassifierOutcome.httpResp status statusMsg (BodyParse.dict fields))
    (h2 : 200 ≤ status) (h3 : status < 300)
    (hc : fields.lookup "confidence" = some (JVal.num c))
    (hc0 : 0 ≤ c) (hc1 : c ≤ 1) :
    predict req w =
      (⟨200, RespBody.success ((fields.lookup "label").getD (JVal.str "Unknown")) (c * 100)⟩,
       [Effect.classifierCall]) := by
  subst hw
  have hs : ¬(400 ≤ status ∧ status < 600) := by omega
  simp [predict, hm, hf, hs, hc, pyFloat]

/-- C1 witness: confidence 0.87 from the classifier yields 87 in the
response. -/
theorem C1_witness :
    exPredictReq.method = Method.POST ∧
    exPredictReq.files.lookup "image" = some exFile ∧
    c1Fields.lookup "confidence" = some (JVal.num (87 / 100)) ∧
    predict exPredictReq c1World =
      (⟨200, RespBody.success (JVal.str "fox") 87⟩, [Effect.classifierCall]) := by
  refine ⟨rfl, rfl, rfl, ?_⟩
  have h := C1_predict_confidence_scaled exPredictReq c1World 200 "" c1Fields exFile
    (87 / 100) rfl rfl rfl (by norm_num) (by norm_num) rfl (by norm_num) (by norm_num)
  rw [h]
  have e : (87 / 100 : ℚ) * 100 = 87 := by norm_num
  rw [e]
  rfl

/-- C3 counterexample: a classifier 200 whose confidence value is JSON
null makes float() raise; the exception is caught by the handler's
catch-all and the request fails with 500, it is not defaulted to 0 with a
200 response as the claim states. -/
theorem C3_counterexample :
    predict exPredictReq c3World =
      (⟨500, RespBody.errorMsg (floatErrMsg JVal.null)⟩, [Effect.classifierCall]) := by
  decide

/-- C3 (amended): on a classifier 2xx whose JSON object merely lacks the
label and confidence keys, predict responds 200 with animal "Unknown" and
confidence 0; but when the confidence value is present and float() cannot
convert it (for example JSON null), the request fails with 500 instead of
defaulting to 0. -/
theorem C3_predict_defaults
    (req : PredictRequest) (w : ClassifierOutcome)
    (status : Nat) (statusMsg : String) (fields : List (String × JVal))
    (f : UploadedFile)
    (hm : req.method = Method.POST)
    (hf : req.files.lookup "image" = some f)
    (hw : w = ClassifierOutcome.httpResp status statusMsg (BodyParse.dict fields))
    (h2 : 200 ≤ status) (h3 : status < 300) :
    (fields.lookup "label" = none → fields.lookup "confidence" = none →
       predict req w =
         (⟨200, RespBody.success (JVal.str "Unknown") 0⟩, [Effect.classifierCall])) ∧
    (fields.lookup "confidence" = some JVal.null →
       predict req w =
         (⟨500, RespBody.errorMsg (floatErrMsg JVal.null)⟩, [Effect.classifierCall])) := by
  subst hw
  have hs : ¬(400 ≤ status ∧ status < 600) := by omega
  constructor
  · intro hl hcnone
    simp [predict, hm, hf, hs, hl, hcnone, pyFloat]
  · intro hcnull
    simp [predict, hm, hf, hs, hcnull, pyFloat]

/-- C3 witness: an empty classifier object yields the 200 default
response, and a null confidence yields 500. -/
theorem C3_witness :
    predict exPredictReq c3EmptyWorld =
      (⟨200, RespBody.success (JVal.str "Unknown") 0⟩, [Effect.classifierCall]) ∧
    predict exPredictReq c3World =
      (⟨500, RespBody.errorMsg (floatErrMsg JVal.null)⟩, [Effect.classifierCall]) := by
  constructor
  · exact (C3_predict_defaults exPredictReq c3EmptyWorld 200 "" [] exFile
      rfl rfl rfl (by norm_num) (by norm_num)).1 rfl rfl
  · exact (C3_predict_defaults exPredictReq c3World 200 "" c3NullFields exFile
      rfl rfl rfl (by norm_num) (by norm_num)).2 rfl

/-- C4: a POST to predict with no image part is answered 400 with the
body error "No image uploaded" and no outbound call is made. -/
theorem C4_predict_no_image
    (req : PredictRequest) (w : ClassifierOutcome)
    (hm : req.method = Method.POST)
    (hf : req.files.lookup "image" = none) :
    predict req w = (⟨400, RespBody.errorMsg "No image uploaded"⟩, []) := by
  simp [predict, hm, hf]

/-- C4 witness. -/
theorem C4_witness :
    noImageReq.method = Method.POST ∧
    noImageReq.files.lookup "image" = none ∧
    predict noImageReq c4World = (⟨400, RespBody.errorMsg "No image uploaded"⟩, []) :=
  ⟨rfl, rfl, C4_predict_no_image noImageReq c4World rfl rfl⟩

/-- C5: a save-history request missing the image part, or missing any of
the form fields animal, confidence, user_id, is answered 400 with a
descriptive message and produces no outbound effect. -/
theorem C5_save_history_validation
    (req : SaveHistoryRequest) (w : StoreWorld) (now : Nat) :
    (req.files.lookup "image" = none →
       save_history req w now = (⟨400, RespBody.errorMsg "No image uploaded"⟩, [])) ∧
    (∀ f, req.files.lookup "image" = some f →
       (req.form.lookup "animal" = none ∨ req.form.lookup "confidence" = none ∨
        req.form.lookup "user_id" = none) →
       save_history req w now = (⟨400, RespBody.errorMsg "Missing required data"⟩, [])) := by
  constructor
  · intro h
    simp [save_history, h]
  · intro f hf hmiss
    have hcond : (pyTruthyOpt (req.form.lookup "animal") &&
        pyTruthyOpt (req.form.lookup "confidence") &&
        pyTruthyOpt (req.form.lookup "user_id")) = false := by
      rcases hmiss with h | h | h <;> simp [h, pyTruthyOpt]
    simp [save_history, hf, hcond]

/-- C5 witness: a request without an image and a request without user_id
are both rejected with 400 and no effects. -/
theorem C5_witness :
    save_history shReqNoImage shWorld 1700000000 =
      (⟨400, RespBody.errorMsg "No image uploaded"⟩, []) ∧
    save_history shReqNoUser shWorld 1700000000 =
      (⟨400, RespBody.errorMsg "Missing required data"⟩, []) := by
  constructor
  · exact (C5_save_history_validation shReqNoImage shWorld 1700000000).1 rfl
  · exact (C5_save_history_validation shReqNoUser shWorld 1700000000).2 exFile rfl
      (Or.inr (Or.inr rfl))

/-- C6: on a validated save-history request, if the captured_images
insert returns no created row the handler answers 500 with "Failed to
create captured image record" and never attempts the labeled_images
insert; and whenever a labeled_images insert is attempted, the
captured_images insert returned a created row and the labeled row
references that row's generated id. -/
theorem C6_save_history_captured_guard
    (req : SaveHistoryRequest) (w : StoreWorld) (now : Nat)
    (f : UploadedFile)
    (hf : req.files.lookup "image" = some f)
    (ha : pyTruthyOpt (req.form.lookup "animal") = true)
    (hc : pyTruthyOpt (req.form.lookup "confidence") = true)
    (hu : pyTruthyOpt (req.form.lookup "user_id") = true) :
    (w.upload = Except.ok () → w.capturedInsert = Except.ok [] →
       (save_history req w now).1 =
         ⟨500, RespBody.errorMsg "Failed to create captured image record"⟩ ∧
       ∀ ld, Effect.insertLabeled ld ∉ (save_history req w now).2) ∧
    (∀ ld, Effect.insertLabeled ld ∈ (save_history req w now).2 →
       ∃ r rs, w.capturedInsert = Except.ok (r :: rs) ∧ ld.captured_image_id = r.id) := by
  obtain ⟨up, purl, cins, lins⟩ := w
  constructor
  · intro hup hins
    simp only [Except.ok.injEq] at hup hins
    subst hup; subst hins
    constructor
    · simp [save_history, hf, ha, hc, hu]
    · intro ld
      simp [save_history, hf, ha, hc, hu]
  · intro ld hmem
    cases up with
    | error m => simp [save_history, hf, ha, hc, hu] at hmem
    | ok uu =>
      cases cins with
      | error m => simp [save_history, hf, ha, hc, hu] at hmem
      | ok rows =>
        cases rows with
        | nil => simp [save_history, hf, ha, hc, hu] at hmem
        | cons r rs =>
          cases hparse : pyFloatString ((req.form.lookup "confidence").getD "") with
          | none => simp [save_history, hf, ha, hc, hu, hparse] at hmem
          | some q =>
            cases lins with
            | error m =>
              simp [save_history, hf, ha, hc, hu, hparse] at hmem
              exact ⟨r, rs, rfl, by rw [hmem]⟩
            | ok vv =>
              simp [save_history, hf, ha, hc, hu, hparse] at hmem
              exact ⟨r, rs, rfl, by rw [hmem]⟩

/-- C6 witness: on a valid request whose captured_images insert returns
no row, the response is the 500 guard error. -/
theorem C6_witness :
    shReqFull.files.lookup "image" = some exFile ∧
    pyTruthyOpt (shReqFull.form.lookup "animal") = true ∧
    pyTruthyOpt (shReqFull.form.lookup "confidence") = true ∧
    pyTruthyOpt (shReqFull.form.lookup "user_id") = true ∧
    c6World.upload = Except.ok () ∧
    c6World.capturedInsert = Except.ok [] ∧
    (save_history shReqFull c6World 1700000000).1 =
      ⟨500, RespBody.errorMsg "Failed to create captured image record"⟩ := by
  refine ⟨rfl, rfl, rfl, rfl, rfl, rfl, ?_⟩
  exact ((C6_save_history_captured_guard shReqFull c6World 1700000000 exFile
    rfl rfl rfl rfl).1 rfl rfl).1

/-- C7 counterexample: requests surfaces a final 300 status (requests
only auto-follows 301, 302, 303, 307, 308 and raise_for_status raises
only for 4xx and 5xx), so a classifier 300 with a parseable body is
answered 200, not 500 as the claim states for every non-2xx status. -/
theorem C7_counterexample :
    predict exPredictReq c7World300 =
      (⟨200, RespBody.success (JVal.str "cat") 50⟩, [Effect.classifierCall]) := by
  have e : (1 / 2 : ℚ) * 100 = 50 := by norm_num
  calc predict exPredictReq c7World300
      = (⟨200, RespBody.success (JVal.str "cat") ((1 / 2 : ℚ) * 100)⟩,
         [Effect.classifierCall]) := rfl
    _ = (⟨200, RespBody.success (JVal.str "cat") 50⟩, [Effect.classifierCall]) := by
        rw [e]

/-- C7 (amended): when the classifier call returns a 4xx or 5xx status,
times out or fails at the network level, predict answers 500 with the
underlying error text in the error field and the classifier call is the
only outbound effect, so nothing is persisted. -/
theorem C7_predict_upstream_failure
    (req : PredictRequest) (w : ClassifierOutcome) (f : UploadedFile)
    (hm : req.method = Method.POST)
    (hf : req.files.lookup "image" = some f) :
    (∀ msg, w = ClassifierOutcome.netFail msg →
       predict req w = (⟨500, RespBody.errorMsg msg⟩, [Effect.classifierCall])) ∧
    (∀ status statusMsg body, w = ClassifierOutcome.httpResp status statusMsg body →
       400 ≤ status → status < 600 →
       predict req w = (⟨500, RespBody.errorMsg statusMsg⟩, [Effect.classifierCall])) := by
  constructor
  · intro msg hw
    subst hw
    simp [predict, hm, hf]
  · intro status statusMsg body hw h4 h6
    subst hw
    have hs : 400 ≤ status ∧ status < 600 := ⟨h4, h6⟩
    simp [predict, hm, hf, hs]

/-- C7 witness: a network failure and a 503 both yield 500 with the
underlying error text and no persistence effect. -/
theorem C7_witness :
    predict exPredictReq c7NetWorld =
      (⟨500, RespBody.errorMsg "Connection timed out"⟩, [Effect.classifierCall]) ∧
    predict exPredictReq c7HttpWorld =
      (⟨500, RespBody.errorMsg "503 Server Error"⟩, [Effect.classifierCall]) := by
  constructor
  · exact (C7_predict_upstream_failure exPredictReq c7NetWorld exFile rfl rfl).1
      "Connection timed out" rfl
  · exact (C7_predict_upstream_failure exPredictReq c7HttpWorld exFile rfl rfl).2
      503 "503 Server Error" (BodyParse.parseFail "boom") rfl (by norm_num) (by norm_num)

/-- C8: at import time the module raises when SUPABASE_URL,
SUPABASE_SERVICE_KEY or MODEL_URL is absent from the environment, so no
route is ever served; PORT is optional and defaults to 5000. -/
theorem C8_config_fail_fast (env : String → Option String) :
    ((env "SUPABASE_URL" = none ∨ env "SUPABASE_SERVICE_KEY" = none ∨
      env "MODEL_URL" = none) → ∃ msg, loadConfig env = Except.error msg) ∧
    (env "PORT" = none → serverPort env = some 5000) := by
  constructor
  · intro h
    unfold loadConfig
    split
    · exact ⟨_, rfl⟩
    · split
      · exact ⟨_, rfl⟩
      · exfalso
        rename_i hc1 hc2
        rcases h with h | h | h
        · rw [h] at hc1
          simp [pyTruthyOpt] at hc1
        · rw [h] at hc1
          simp [pyTruthyOpt] at hc1
        · rw [h] at hc2
          simp [pyTruthyOpt] at hc2
  · intro h
    simp [serverPort, h]

/-- C8 witness: with an empty environment the config load fails and the
port defaults to 5000. -/
theorem C8_witness :
    emptyEnv "SUPABASE_URL" = none ∧
    (∃ msg, loadConfig emptyEnv = Except.error msg) ∧
    serverPort emptyEnv = some 5000 := by
  refine ⟨rfl, ?_, ?_⟩
  · exact (C8_config_fail_fast emptyEnv).1 (Or.inl rfl)
  · exact (C8_config_fail_fast emptyEnv).2 rfl

/-- C9: for every request and every classifier outcome, the predict
handler attempts no storage upload and no table insert: every effect it
produces is the classifier call, so persistence happens only through
save-history. -/
theorem C9_predict_no_persistence (req : PredictRequest) (w : ClassifierOutcome) :
    ((predict req w).2).all Effect.isClassifierCall = true := by
  unfold predict
  split
  · rfl
  · split
    · rfl
    · cases w with
      | netFail msg => rfl
      | httpResp status statusMsg body =>
        dsimp only
        split
        · rfl
        · cases body with
          | parseFail msg => rfl
          | nondict msg => rfl
          | dict fields =>
            dsimp only
            split <;> rfl

/-- C10: an OPTIONS request to predict is always answered 200 with the
preflight body, with no validation and no outbound effect. -/
theorem C10_predict_options_preflight
    (req : PredictRequest) (w : ClassifierOutcome)
    (h : req.method = Method.OPTIONS) :
    predict req w = (⟨200, RespBody.okStatus⟩, []) := by
  simp [predict, h]

/-- C10 witness. -/
theorem C10_witness :
    optionsReq.method = Method.OPTIONS ∧
    predict optionsReq c10World = (⟨200, RespBody.okStatus⟩, []) :=
  ⟨rfl, C10_predict_options_preflight optionsReq c10World rfl⟩

/-- C2: the notify-by-reference operation, modelled from the spec,
answers 200 with the success body (status, animal, confidence) whenever
image_url, captured_image_id and user_id are present and every downstream
call succeeds, and answers 400 when any of the three is missing. -/
theorem C2_webhook_contract
    (image_url captured_image_id user_id : Option String) (w : WebhookWorld) :
    (∀ i c u bs fields, image_url = some i → captured_image_id = some c →
       user_id = some u →
       w.setProcessing = Except.ok () → w.fetchImage = Except.ok bs →
       w.classify = Except.ok fields →
       w.insertLabeled = Except.ok () → w.setCompleted = Except.ok () →
       webhook_process_image image_url captured_image_id user_id w =
         ⟨200, RespBody.success ((fields.lookup "label").getD (JVal.str "unknown"))
            (((pyFloat ((fields.lookup "confidence").getD (JVal.num 0))).getD 0) * 100)⟩) ∧
    ((image_url = none ∨ captured_image_id = none ∨ user_id = none) →
       (webhook_process_image image_url captured_image_id user_id w).status = 400) := by
  constructor
  · intro i c u bs fields h1 h2 h3 h4 h5 h6 h7 h8
    subst h1; subst h2; subst h3
    simp [webhook_process_image, h4, h5, h6, h7, h8]
  · intro h
    rcases h with h | h | h <;> simp [webhook_process_image, h]

/-- C2 witness: the scenario of the spec, label fox with confidence 0.92,
yields 200 with confidence 92; dropping image_url yields 400. -/
theorem C2_witness :
    webhook_process_image (some "https://x/img.jpg") (some "abc") (some "u1") c2World =
      ⟨200, RespBody.success (JVal.str "fox") 92⟩ ∧
    (webhook_process_image none (some "abc") (some "u1") c2World).status = 400 := by
  constructor
  · have h := (C2_webhook_contract (some "https://x/img.jpg") (some "abc") (some "u1")
      c2World).1 "https://x/img.jpg" "abc" "u1" [1, 2] c2Fields
      rfl rfl rfl rfl rfl rfl rfl rfl
    rw [h]
    have e : (92 / 100 : ℚ) * 100 = 92 := by norm_num
    calc (⟨200, RespBody.success ((c2Fields.lookup "label").getD (JVal.str "unknown"))
            (((pyFloat ((c2Fields.lookup "confidence").getD (JVal.num 0))).getD 0) * 100)⟩ :
          HttpResponse)
        = ⟨200, RespBody.success (JVal.str "fox") ((92 / 100 : ℚ) * 100)⟩ := rfl
      _ = ⟨200, RespBody.success (JVal.str "fox") 92⟩ := by rw [e]
  · exact (C2_webhook_contract none (some "abc") (some "u1") c2World).2 (Or.inl rfl)

end AnimalDetection
